import Mathlib

/-!
Verification development for the `2apifare` gateway.

The definitions below are a shallow embedding of the two core source files:
  * `src/ip_manager.py`  — IP admission, accounting, ban policy, pruning,
    operator ban throttle;
  * `src/google_chat_api.py` — upstream retry/rotate/refresh/ban state
    machine and streaming teardown.

Python dictionaries are modelled as insertion-ordered association lists
(`alookup`/`aupsert`), `dict.get(k, d)` as `Option.getD`, epoch seconds as
`Int`, counters as `Nat`, and the event-emitting side effects of the proxy
engine as an explicit event trace.
-/

namespace Fare

/-- Lookup in an insertion-ordered association list (Python `d[k]` / `k in d`). -/
def alookup {α : Type} : List (String × α) → String → Option α
  | [], _ => none
  | (k, v) :: rest, key => if k = key then some v else alookup rest key

/-- Python `d[k] = v`: replace in place when the key exists, else append. -/
def aupsert {α : Type} : List (String × α) → String → α → List (String × α)
  | [], key, v => [(key, v)]
  | (k, w) :: rest, key, v =>
      if k = key then (k, v) :: rest else (k, w) :: aupsert rest key v

theorem alookup_aupsert_self {α : Type} (l : List (String × α)) (k : String) (v : α) :
    alookup (aupsert l k v) k = some v := by
  induction l with
  | nil => simp [alookup, aupsert]
  | cons hd tl ih =>
      obtain ⟨k', w⟩ := hd
      by_cases h : k' = k
      · simp [alookup, aupsert, h]
      · simp [alookup, aupsert, h, ih]

/-- Python `counts[k] = counts.get(k, 0) + 1`. -/
def bumpCount (l : List (String × Nat)) (k : String) : List (String × Nat) :=
  aupsert l k ((alookup l k).getD 0 + 1)

/-- Python `xs[-n:]`. -/
def takeLast {α : Type} (n : Nat) (l : List α) : List α :=
  l.drop (l.length - n)

/-- One entry of the `ips` table of `ip_stats.toml` (`ip_manager.py`).
Every field is optional because the Python code reads each key with
`dict.get(key, default)`; the defaults are applied at each use site exactly
as in the source. -/
structure IPRecord where
  firstSeen : Option String := none
  lastSeen : Option String := none
  totalRequests : Option Nat := none
  todayRequests : Option Nat := none
  todayDate : Option String := none
  status : Option String := none
  lastRequestTime : Option Int := none
  rateLimitSeconds : Option Int := none
  bannedTime : Option Int := none
  bannedAt : Option String := none
  autoUnbannedTime : Option String := none
  location : Option String := none
  userAgents : Option (List String) := none
  modelsUsed : Option (List (String × Nat)) := none
  endpoints : Option (List (String × Nat)) := none
deriving DecidableEq

instance : Inhabited IPRecord := ⟨{}⟩

/-- The `IPManager` mutable state: the `ips` cache, its dirty flag, and the
content of the `ban_operations.toml` file. -/
structure IMState where
  ips : List (String × IPRecord) := []
  cacheDirty : Bool := false
  banOps : List (String × List Int) := []
deriving DecidableEq

/-- `IPManager.check_ip_allowed` (`ip_manager.py` lines 215-256): admission
only, with the opportunistic auto-unban of an expired ban.  `now` is
`time.time()`, `nowStr` the formatted UTC+8 wall clock. -/
def check_ip_allowed (st : IMState) (ip : String) (now : Int) (nowStr : String) :
    Bool × IMState :=
  match alookup st.ips ip with
  | none => (true, st)
  | some r =>
      if r.status = some "banned" then
        if r.bannedTime.getD 0 > 0 ∧ now - r.bannedTime.getD 0 ≥ 86400 then
          let r1 := { r with status := some "active", autoUnbannedTime := some nowStr }
          let st1 := { st with ips := aupsert st.ips ip r1, cacheDirty := true }
          if r1.status = some "rate_limited" ∧
              now - r1.lastRequestTime.getD 0 < r1.rateLimitSeconds.getD 60 then
            (false, st1)
          else
            (true, st1)
        else
          (false, st)
      else
        if r.status = some "rate_limited" ∧
            now - r.lastRequestTime.getD 0 < r.rateLimitSeconds.getD 60 then
          (false, st)
        else
          (true, st)

/-- `IPManager.record_request` (`ip_manager.py` lines 258-353).  `todayDate`
is today's date string in UTC+8, `loc` the resolved location for a fresh
record (the network resolver is passed in as data). -/
def record_request (st : IMState) (ip endpoint : String) (userAgent mdl : Option String)
    (now : Int) (nowStr todayDate loc : String) : Bool × IMState :=
  let blocked : Bool :=
    match alookup st.ips ip with
    | some r =>
        if r.status = some "banned" then true
        else if r.status = some "rate_limited" ∧
            now - r.lastRequestTime.getD 0 < r.rateLimitSeconds.getD 60 then true
        else false
    | none => false
  if blocked then (false, st)
  else
    let ips1 :=
      match alookup st.ips ip with
      | some _ => st.ips
      | none =>
          aupsert st.ips ip
            { firstSeen := some nowStr, totalRequests := some 0, todayRequests := some 0,
              todayDate := some todayDate, status := some "active", location := some loc,
              userAgents := some [], modelsUsed := some [], endpoints := some [] }
    let r0 := (alookup ips1 ip).getD {}
    let r1 :=
      if r0.todayDate.getD "" ≠ todayDate then
        { r0 with todayRequests := some 0, todayDate := some todayDate,
                  modelsUsed := some [] }
      else r0
    let r2 := { r1 with
        totalRequests := some (r1.totalRequests.getD 0 + 1),
        todayRequests := some (r1.todayRequests.getD 0 + 1),
        lastRequestTime := some now, lastSeen := some nowStr }
    let r3 :=
      match userAgent with
      | some ua =>
          if ua ≠ "" ∧ ua ∉ r2.userAgents.getD [] then
            { r2 with userAgents := some (takeLast 10 (r2.userAgents.getD [] ++ [ua])) }
          else r2
      | none => r2
    let r4 :=
      match mdl with
      | some m =>
          if m ≠ "" then { r3 with modelsUsed := some (bumpCount (r3.modelsUsed.getD []) m) }
          else r3
      | none => r3
    let r5 := { r4 with endpoints := some (bumpCount (r4.endpoints.getD []) endpoint) }
    (true, { st with ips := aupsert ips1 ip r5, cacheDirty := true })

/-- `IPManager._load_ban_operations` (`ip_manager.py` lines 476-518).
Returns the map handed back to the caller (when the cleanup rewrites the
file, both the returned map and the file hold the same data, so one map
suffices) together with the flag "the file was rewritten".  Note the source
replaces `ban_data["operators"]` with the filtered map, and saves, only
when `removed_count > 0`, and `removed_count` counts operators whose entire
list expired — not expired timestamps. -/
def load_ban_operations (ops : List (String × List Int)) (now : Int) :
    List (String × List Int) × Bool :=
  let cleaned :=
    (ops.map (fun p => (p.1, p.2.filter (fun ts => now - ts < 3600)))).filter
      (fun p => !p.2.isEmpty)
  let removedCount := ops.countP (fun p => (p.2.filter (fun ts => now - ts < 3600)).isEmpty)
  if removedCount > 0 then (cleaned, true) else (ops, false)

/-- The throttle refusal message of `_check_ban_operation_limit`. -/
def throttleMsg (minutes : Int) : String :=
  "封禁操作过于频繁，请在 " ++ toString minutes ++ " 分钟后再试（1小时内最多封禁3次）"

/-- `IPManager._check_ban_operation_limit` (`ip_manager.py` lines 559-590):
`((allowed, error), file content after the read)`. -/
def check_ban_operation_limit (ops : List (String × List Int)) (operatorIp : String)
    (now : Int) : (Bool × String) × List (String × List Int) :=
  let loaded := load_ban_operations ops now
  let records := (alookup loaded.1 operatorIp).getD []
  if records.length ≥ 3 then
    let oldest := records.headD 0
    let remaining := 3600 - (now - oldest)
    ((false, throttleMsg (Int.fdiv remaining 60)), loaded.1)
  else
    ((true, ""), loaded.1)

/-- `IPManager._record_ban_operation` (`ip_manager.py` lines 535-557):
load (with lazy cleanup), append `time.time()` to the operator's list,
save. -/
def record_ban_operation (ops : List (String × List Int)) (operatorIp : String)
    (now : Int) : List (String × List Int) :=
  let loaded := load_ban_operations ops now
  aupsert loaded.1 operatorIp (((alookup loaded.1 operatorIp).getD []) ++ [now])

/-- Refusal message of the `today_requests < 80` ban guard in `set_ip_status`. -/
def banRefusedMsg (n : Nat) : String :=
  "今日请求仅 " ++ toString n ++ " 次，少于80次不能封禁（保护每位用户体验）"

/-- Refusal message for an invalid status argument in `set_ip_status`. -/
def invalidStatusMsg : String := "无效的状态类型"

/-- Guard 1 of a ban in `set_ip_status` (`ip_manager.py` lines 619-624):
refuses only when a record exists for `ip` and its `today_requests`
(default 0) is below 80. -/
def todayGuard (st : IMState) (ip : String) : Option String :=
  match alookup st.ips ip with
  | some r =>
      if r.todayRequests.getD 0 < 80 then some (banRefusedMsg (r.todayRequests.getD 0))
      else none
  | none => none

/-- `IPManager.set_ip_status` (`ip_manager.py` lines 592-659).  Returns
`((ok, error), new state)`.  `loc` is the resolved location used when a
fresh record is created. -/
def set_ip_status (st : IMState) (ip status : String) (rateLimitSeconds : Option Int)
    (operatorIp : Option String) (now : Int) (nowStr loc : String) :
    (Bool × String) × IMState :=
  if status ∉ ["active", "banned", "rate_limited"] then
    ((false, invalidStatusMsg), st)
  else
    match (if status = "banned" then todayGuard st ip else none) with
    | some msg => ((false, msg), st)
    | none =>
        let throttled : Option String × List (String × List Int) :=
          if status = "banned" then
            match operatorIp with
            | some op =>
                let res := check_ban_operation_limit st.banOps op now
                (if res.1.1 then none else some res.1.2, res.2)
            | none => (none, st.banOps)
          else (none, st.banOps)
        match throttled.1 with
        | some err => ((false, err), { st with banOps := throttled.2 })
        | none =>
            let ips1 :=
              if (alookup st.ips ip).isNone then
                aupsert st.ips ip
                  { firstSeen := some nowStr, totalRequests := some 0,
                    todayRequests := some 0, location := some loc }
              else st.ips
            let r0 := (alookup ips1 ip).getD {}
            let r1 := { r0 with status := some status }
            let r2 :=
              if status = "banned" then
                { r1 with bannedTime := some now, bannedAt := some nowStr }
              else r1
            let r3 :=
              if status = "rate_limited" ∧ (rateLimitSeconds.getD 0) ≠ 0 then
                { r2 with rateLimitSeconds := rateLimitSeconds }
              else r2
            let st1 := { st with ips := aupsert ips1 ip r3, cacheDirty := true,
                                 banOps := throttled.2 }
            let st2 :=
              match operatorIp with
              | some op =>
                  if status = "banned" then
                    { st1 with banOps := record_ban_operation st1.banOps op now }
                  else st1
              | none => st1
            ((true, ""), st2)

/-- Per-record removal test of `IPManager._cleanup_old_ips`
(`ip_manager.py` lines 160-195). -/
def shouldRemoveIP (r : IPRecord) (now : Int) : Bool :=
  let lastRequest := r.lastRequestTime.getD 0
  let status := r.status.getD "active"
  let total := r.totalRequests.getD 0
  if status = "banned" then false
  else if lastRequest = 0 then false
  else
    let inactive := now - lastRequest
    if total ≥ 300 then decide (inactive ≥ 7 * 86400)
    else if total ≥ 50 then decide (inactive ≥ 5 * 86400)
    else decide (inactive ≥ 3 * 86400)

/-- `IPManager._cleanup_old_ips` (`ip_manager.py` lines 137-208): delete
every record satisfying `shouldRemoveIP`; the dirty flag is raised only
when something was removed. -/
def cleanup_old_ips (st : IMState) (now : Int) : IMState :=
  let ipsToRemove := st.ips.filter (fun p => shouldRemoveIP p.2 now)
  let kept := st.ips.filter (fun p => !shouldRemoveIP p.2 now)
  if ipsToRemove.isEmpty then st
  else { st with ips := kept, cacheDirty := true }

/-- Runtime configuration consumed by `send_gemini_request`
(`google_chat_api.py` lines 230-233 and the `config` module). -/
structure RetryCfg where
  maxRetries : Nat
  retry429Enabled : Bool
  retryInterval : Rat
  autoBanEnabled : Bool
  autoBanCodes : List Nat
deriving DecidableEq

/-- Observable side effects of one pass through the retry loop of
`send_gemini_request`: per-credential call accounting, credential
disabling, forced rotation, token refresh, and backoff sleeps. -/
inductive Ev where
  | recordCall (cred : String) (ok : Bool) (code : Option Nat)
  | rotate
  | disable (cred : String)
  | refreshAttempt (cred : String) (ok : Bool)
  | sleep (seconds : Rat)
deriving DecidableEq

/-- Final outcome of `send_gemini_request`: a delivered 200 response, or a
structured error object whose `code` field is the given status. -/
inductive Outcome where
  | success (cred : String)
  | errorResp (code : Nat)
deriving DecidableEq

/-- Modelled from the spec: the credential pool lives in
`credential_manager.py`, which is not among the source files — only its
callers in `google_chat_api.py` are.  Per spec §4.1 the pool is an ordered
disable-aware round robin: `borrow` returns the next active credential
(none only if every credential is disabled), `rotate` advances the cursor
without counting a call, `disable` marks a credential ineligible. -/
structure Pool where
  creds : List String
  cursor : Nat
  disabled : List String
deriving DecidableEq

/-- Modelled from the spec: round-robin choice over the active subset,
skipping disabled credentials, starting at the cursor. -/
def Pool.borrow (p : Pool) : Option String :=
  (List.range p.creds.length).findSome? (fun k =>
    match p.creds.get? ((p.cursor + k) % p.creds.length) with
    | some c => if p.disabled.contains c then none else some c
    | none => none)

/-- Modelled from the spec: advance the cursor to the next credential
without counting a call. -/
def Pool.rotate (p : Pool) : Pool :=
  { p with cursor := (p.cursor + 1) % max p.creds.length 1 }

/-- Modelled from the spec: set the disabled flag of one credential. -/
def Pool.disable (p : Pool) (c : String) : Pool :=
  { p with disabled := if p.disabled.contains c then p.disabled else c :: p.disabled }

/-- Result of one attempt of the retry loop: either retry with a new pool
state and bound credential, or terminate with an outcome.  In both cases
the emitted events are listed in execution order. -/
inductive StepRes where
  | retry (pool : Pool) (cur : String) (evs : List Ev)
  | done (out : Outcome) (evs : List Ev)
deriving DecidableEq

/-- One attempt of the `send_gemini_request` retry loop
(`google_chat_api.py` lines 264-585, non-streaming branch lines 469-569;
the streaming branch lines 277-449 drives the same policy).  `code` is the
upstream HTTP status for this attempt and `refreshOk` the result of
`force_refresh_current_token` if it were called.  After a rotation the new
bound credential is `borrow`, with the old one kept when the pool is
exhausted (`if next_cred_result:` keeps the previous binding). -/
def attemptStep (cfg : RetryCfg) (code : Nat) (refreshOk : Bool) (i : Nat)
    (pool : Pool) (cur : String) : StepRes :=
  if code = 429 then
    let evs := [Ev.recordCall cur false (some 429)]
    if cfg.retry429Enabled ∧ i < cfg.maxRetries then
      let pool1 := pool.rotate
      .retry pool1 (pool1.borrow.getD cur)
        (evs ++ [Ev.rotate, Ev.sleep (cfg.retryInterval * 2 ^ i)])
    else
      .done (.errorResp 429) evs
  else if code ≠ 200 then
    if 500 ≤ code ∧ code < 600 ∧ i < cfg.maxRetries then
      .retry pool cur [Ev.sleep (cfg.retryInterval * 2 ^ i)]
    else if (cfg.autoBanEnabled ∧ code ∈ cfg.autoBanCodes) ∧ i < cfg.maxRetries then
      let evs0 := [Ev.recordCall cur false (some code)]
      if code ∈ [400, 401, 404] then
        if refreshOk then
          .retry pool (pool.borrow.getD cur)
            (evs0 ++ [Ev.refreshAttempt cur true, Ev.sleep (1 / 2)])
        else
          let pool1 := (pool.disable cur).rotate
          .retry pool1 (pool1.borrow.getD cur)
            (evs0 ++ [Ev.refreshAttempt cur false, Ev.disable cur, Ev.rotate,
                      Ev.sleep (1 / 2)])
      else
        let pool1 := (pool.disable cur).rotate
        .retry pool1 (pool1.borrow.getD cur)
          (evs0 ++ [Ev.disable cur, Ev.rotate, Ev.sleep (1 / 2)])
    else
      let evs0 := [Ev.recordCall cur false (some code)]
      if cfg.autoBanEnabled ∧ code ∈ cfg.autoBanCodes then
        .done (.errorResp code) (evs0 ++ [Ev.disable cur, Ev.rotate])
      else
        .done (.errorResp code) evs0
  else
    .done (.success cur) [Ev.recordCall cur true none]

/-- The `for attempt in range(max_retries + 1)` loop of
`send_gemini_request`, with `fuel` the number of remaining iterations; the
fall-through after the loop is `_create_error_response("Max retries
exceeded", 429)`. -/
def runAttempts (cfg : RetryCfg) (env : Nat → Nat) (renv : Nat → Bool) :
    Nat → Nat → Pool → String → Outcome × List Ev
  | 0, _, _, _ => (.errorResp 429, [])
  | fuel + 1, i, pool, cur =>
      match attemptStep cfg (env i) (renv i) i pool cur with
      | .done out evs => (out, evs)
      | .retry pool1 cur1 evs =>
          let rest := runAttempts cfg env renv fuel (i + 1) pool1 cur1
          (rest.1, evs ++ rest.2)

/-- `send_gemini_request` (`google_chat_api.py` lines 216-585) as a pure
machine: `env i` is the upstream status answered to attempt `i`, `renv i`
the success of a token refresh attempted at attempt `i`. -/
def send_gemini_request (cfg : RetryCfg) (env : Nat → Nat) (renv : Nat → Bool)
    (pool : Pool) : Outcome × List Ev :=
  match pool.borrow with
  | none => (.errorResp 500, [])
  | some cur => runAttempts cfg env renv (cfg.maxRetries + 1) 0 pool cur

/-- How a run of the streaming generator terminates: clean exhaustion of
the upstream stream, an exception raised after `k` upstream chunks were
consumed, or client cancellation after `k` chunks. -/
inductive StreamExit where
  | clean
  | exceptAt (k : Nat) (msg : String)
  | cancelAt (k : Nat)
deriving DecidableEq

/-- Observable actions of `managed_stream_generator`. -/
inductive StreamEv where
  | yieldData (payload : String)
  | yieldError (msg : String)
  | closeStreamCtx
  | closeClient
deriving DecidableEq

/-- The per-chunk body of the generator loop (`google_chat_api.py` lines
663-694): a chunk is forwarded only when it carries an SSE `data: `
payload; anything else is skipped. -/
def processChunk (chunk : String) : Option StreamEv :=
  if chunk.startsWith "data: " then some (.yieldData (chunk.drop 6)) else none

/-- `_handle_streaming_response_managed`'s inner generator
(`google_chat_api.py` lines 659-711), embedded as the trace of actions it
performs.  The `try` body consumes chunks until the exit condition stops
it; `except Exception` yields one error frame (a cancellation is not an
`Exception`, so it yields nothing); the `finally` block — which Python runs
on every exit path of a generator, including `GeneratorExit` on client
disconnect — closes the stream context and then the HTTP client, in that
source order. -/
def managed_stream_generator (chunks : List String) (ex : StreamExit) : List StreamEv :=
  let body :=
    match ex with
    | .clean => chunks.filterMap processChunk
    | .exceptAt k msg => (chunks.take k).filterMap processChunk ++ [.yieldError msg]
    | .cancelAt k => (chunks.take k).filterMap processChunk
  body ++ [.closeStreamCtx, .closeClient]

/-! ## Claim-side predicates and helper lemmas -/

/-- The pruning rule exactly as the specification words it: non-banned,
non-zero `last_request_time`, inactivity at least 7 days when
`total_requests ≥ 300`, 5 days when `50 ≤ total_requests ≤ 299`, 3 days
when `total_requests < 50`. -/
def spec_prune (r : IPRecord) (now : Int) : Bool :=
  decide (r.status.getD "active" ≠ "banned") &&
  decide (r.lastRequestTime.getD 0 ≠ 0) &&
  ((decide (r.totalRequests.getD 0 ≥ 300) &&
      decide (now - r.lastRequestTime.getD 0 ≥ 7 * 86400)) ||
   (decide (50 ≤ r.totalRequests.getD 0) && decide (r.totalRequests.getD 0 ≤ 299) &&
      decide (now - r.lastRequestTime.getD 0 ≥ 5 * 86400)) ||
   (decide (r.totalRequests.getD 0 < 50) &&
      decide (now - r.lastRequestTime.getD 0 ≥ 3 * 86400)))

theorem shouldRemoveIP_eq_spec_prune (r : IPRecord) (now : Int) :
    shouldRemoveIP r now = spec_prune r now := by
  rw [Bool.eq_iff_iff]
  simp only [shouldRemoveIP, spec_prune, Bool.and_eq_true, Bool.or_eq_true,
    decide_eq_true_eq, ne_eq]
  split_ifs with h1 h2 h3 h4 <;>
    simp_all <;> omega

theorem cleanup_ips_eq (st : IMState) (now : Int) :
    (cleanup_old_ips st now).ips = st.ips.filter (fun p => !spec_prune p.2 now) := by
  have hcong : st.ips.filter (fun p => !spec_prune p.2 now)
      = st.ips.filter (fun p => !shouldRemoveIP p.2 now) := by
    apply List.filter_congr
    intro x _
    rw [shouldRemoveIP_eq_spec_prune]
  rw [hcong]
  by_cases h : (List.filter (fun p => shouldRemoveIP p.2 now) st.ips).isEmpty
  · simp only [cleanup_old_ips, h, if_pos]
    simp only [List.isEmpty_iff, List.filter_eq_nil_iff] at h
    symm
    rw [List.filter_eq_self]
    intro a ha
    simp [h a ha]
  · simp only [cleanup_old_ips, h, if_neg, Bool.false_eq_true, not_false_eq_true]

/-- Holds when the stored record of `ip` is a ban that has already expired
at time `now` — the one situation in which the admission decisions of
`check_ip_allowed` and `record_request` disagree. -/
def expiredBanB (st : IMState) (ip : String) (now : Int) : Bool :=
  match alookup st.ips ip with
  | some r => decide (r.status = some "banned") && decide (r.bannedTime.getD 0 > 0) &&
      decide (now - r.bannedTime.getD 0 ≥ 86400)
  | none => false

theorem close_not_mem_processed (l : List String) :
    StreamEv.closeStreamCtx ∉ l.filterMap processChunk ∧
    StreamEv.closeClient ∉ l.filterMap processChunk := by
  constructor <;>
    · intro h
      rw [List.mem_filterMap] at h
      rcases h with ⟨a, _, ha⟩
      simp only [processChunk] at ha
      split_ifs at ha
      simp at ha

/-! ## Claims -/

/-- C1 (corrected): as stated the claim is false — the `today_requests < 80`
guard of `set_ip_status` runs only when a record for the IP already exists
(`if ip in self._ip_cache["ips"]`); an IP with no record bypasses the guard,
so with an empty store a ban of an unknown IP succeeds and sets the status
to banned. -/
theorem C1_counterexample :
    alookup ({} : IMState).ips "9.9.9.9" = none ∧
    (set_ip_status {} "9.9.9.9" "banned" none none 1000 "ts" "loc").1 = (true, "") ∧
    (alookup (set_ip_status {} "9.9.9.9" "banned" none none 1000 "ts" "loc").2.ips
        "9.9.9.9").map (fun x => x.status) = some (some "banned") := by
  decide

/-- C1 (amended): when a record exists for the IP, a ban with
`today_requests < 80` is refused with the protection message and the whole
state is left unchanged, regardless of the operator argument; when a record
exists with `today_requests ≥ 80` the guard passes and (with no operator
throttle in play) the ban succeeds; an IP with no record bypasses the guard
and the ban succeeds. -/
theorem C1_ban_guard (st : IMState) (ip : String) (rls : Option Int)
    (opIp : Option String) (now : Int) (nowStr loc : String) :
    (∀ r, alookup st.ips ip = some r → r.todayRequests.getD 0 < 80 →
       set_ip_status st ip "banned" rls opIp now nowStr loc
         = ((false, banRefusedMsg (r.todayRequests.getD 0)), st)) ∧
    (∀ r, alookup st.ips ip = some r → 80 ≤ r.todayRequests.getD 0 →
       ((set_ip_status st ip "banned" rls none now nowStr loc).1 = (true, "") ∧
        (alookup (set_ip_status st ip "banned" rls none now nowStr loc).2.ips ip).map
            (fun x => x.status) = some (some "banned"))) ∧
    (alookup st.ips ip = none →
       (set_ip_status st ip "banned" rls none now nowStr loc).1 = (true, "")) := by
  have hmem : ("banned" : String) ∈ ["active", "banned", "rate_limited"] := by decide
  have hrl : ("banned" : String) ≠ "rate_limited" := by decide
  refine ⟨?_, ?_, ?_⟩
  · intro r hr hlt
    simp [set_ip_status, todayGuard, hmem, hr, hlt]
  · intro r hr hge
    have hguard : todayGuard st ip = none := by
      simp only [todayGuard, hr]
      rw [if_neg]
      omega
    constructor
    · simp [set_ip_status, hmem, hguard, hr]
    · simp [set_ip_status, hmem, hguard, hr, hrl, alookup_aupsert_self]
  · intro h
    simp [set_ip_status, todayGuard, hmem, h, hrl, alookup_aupsert_self]

def c1State : IMState := { ips := [("1.2.3.4", { todayRequests := some 79 })] }

def c1Rec : IPRecord := { todayRequests := some 79 }

/-- C1 witness: a stored IP with `today_requests = 79` is refused. -/
theorem C1_witness :
    alookup c1State.ips "1.2.3.4" = some c1Rec ∧
    c1Rec.todayRequests.getD 0 < 80 ∧
    set_ip_status c1State "1.2.3.4" "banned" none none 50 "t" "l"
      = ((false, banRefusedMsg (c1Rec.todayRequests.getD 0)), c1State) :=
  ⟨by decide, by decide,
   (C1_ban_guard c1State "1.2.3.4" none none 50 "t" "l").1 c1Rec (by decide) (by decide)⟩

/-- C2 (corrected): as stated the claim is false — `record_request` performs
no opportunistic auto-unban.  For a record banned at epoch 1 queried at
86401 (ban expired), `check_ip_allowed` admits (and lifts the ban) while
`record_request` refuses. -/
theorem C2_counterexample :
    (check_ip_allowed
        { ips := [("1.1.1.1", { status := some "banned", bannedTime := some 1 })] }
        "1.1.1.1" 86401 "t").1 = true ∧
    (record_request
        { ips := [("1.1.1.1", { status := some "banned", bannedTime := some 1 })] }
        "1.1.1.1" "/v1/chat/completions" none none 86401 "t" "2024-01-01" "l").1
      = false := by
  decide

/-- C2 (amended): away from the expired-ban situation the admission decision
applied inside `record_request` equals the decision of `check_ip_allowed`
on the same state; on an expired ban the two differ (see the
counterexample), because only `check_ip_allowed` lifts the ban. -/
theorem C2_admission_agrees (st : IMState) (ip endpoint : String)
    (ua mdl : Option String) (now : Int) (nowStr todayDate loc : String)
    (h : expiredBanB st ip now = false) :
    (record_request st ip endpoint ua mdl now nowStr todayDate loc).1
      = (check_ip_allowed st ip now nowStr).1 := by
  cases hr : alookup st.ips ip with
  | none => simp [record_request, check_ip_allowed, hr]
  | some r =>
      simp only [expiredBanB, hr, Bool.and_eq_false_iff, decide_eq_false_iff_not,
        not_lt, not_le] at h
      by_cases hb : r.status = some "banned"
      · have hexp : ¬(r.bannedTime.getD 0 > 0 ∧ now - r.bannedTime.getD 0 ≥ 86400) := by
          rcases h with (h1 | h2) | h3
          · exact absurd hb h1
          · intro hx; omega
          · intro hx; omega
        simp [record_request, check_ip_allowed, hr, hb, hexp]
      · by_cases hrl : r.status = some "rate_limited" ∧
            now - r.lastRequestTime.getD 0 < r.rateLimitSeconds.getD 60
        · simp [record_request, check_ip_allowed, hr, hb, hrl]
        · simp [record_request, check_ip_allowed, hr, hb, hrl]

def c2State : IMState := { ips := [("7.7.7.7", { status := some "active", todayRequests := some 3 })] }

/-- C2 witness: on an active record the two admission decisions agree. -/
theorem C2_witness :
    expiredBanB c2State "7.7.7.7" 5 = false ∧
    (record_request c2State "7.7.7.7" "/v1/chat/completions" none none 5 "t"
        "2024-01-01" "l").1
      = (check_ip_allowed c2State "7.7.7.7" 5 "t").1 :=
  ⟨by decide,
   C2_admission_agrees c2State "7.7.7.7" "/v1/chat/completions" none none 5 "t"
     "2024-01-01" "l" (by decide)⟩

/-- C3 (corrected): as stated the claim is false — the retry loop carries no
"refresh already attempted" flag, so a token refresh is attempted on every
401/400/404 auto-ban attempt with `i < N`, not only on the first.  With one
credential, `max_retries = 2`, upstream always answering 401 and every
refresh succeeding, the run performs two refresh attempts (the claim allows
at most one per request). -/
theorem C3_counterexample :
    ((send_gemini_request ⟨2, true, 1, true, [401]⟩ (fun _ => 401) (fun _ => true)
        ⟨["A"], 0, []⟩).2.countP
      (fun e => match e with | .refreshAttempt _ _ => true | _ => false)) = 2 := by
  decide

/-- C3 (amended): on every attempt with `i < N` whose upstream status is
401, 400 or 404 and lies in the enabled auto-ban set, a token refresh is
attempted; on refresh success the same credential is retried after the
fixed 0.5 s delay, and on refresh failure the current credential is
disabled and the pool rotated before the retry.  Once `i = N` no refresh is
attempted: the failure is recorded and the credential disabled and the pool
rotated as part of the final error handling, terminating with a structured
error of that status. -/
theorem C3_refresh_every_attempt (cfg : RetryCfg) (code : Nat) (refreshOk : Bool)
    (i : Nat) (pool : Pool) (cur : String)
    (hcode : code ∈ [400, 401, 404]) (hab : cfg.autoBanEnabled = true)
    (hset : code ∈ cfg.autoBanCodes) :
    (i < cfg.maxRetries →
       attemptStep cfg code refreshOk i pool cur =
         if refreshOk then
           .retry pool (pool.borrow.getD cur)
             [Ev.recordCall cur false (some code), Ev.refreshAttempt cur true,
              Ev.sleep (1 / 2)]
         else
           .retry ((pool.disable cur).rotate)
             (((pool.disable cur).rotate).borrow.getD cur)
             [Ev.recordCall cur false (some code), Ev.refreshAttempt cur false,
              Ev.disable cur, Ev.rotate, Ev.sleep (1 / 2)]) ∧
    (¬ i < cfg.maxRetries →
       attemptStep cfg code refreshOk i pool cur =
         .done (.errorResp code)
           [Ev.recordCall cur false (some code), Ev.disable cur, Ev.rotate]) := by
  have h429 : code ≠ 429 := by fin_cases hcode <;> decide
  have h200 : code ≠ 200 := by fin_cases hcode <;> decide
  constructor
  · intro hi
    have h5xx : ¬(500 ≤ code ∧ code < 600 ∧ i < cfg.maxRetries) := by
      fin_cases hcode <;> omega
    simp only [attemptStep, h429, if_neg, ite_false, h200, ne_eq, not_false_eq_true,
      ite_true, if_pos, h5xx, hab, hset, hi, and_true, true_and, hcode]
    cases refreshOk <;> simp <;> (intro h; fin_cases hcode <;> omega)
  · intro hi
    have h5xx : ¬(500 ≤ code ∧ code < 600 ∧ i < cfg.maxRetries) := by
      fin_cases hcode <;> omega
    have hnr : ¬((cfg.autoBanEnabled = true ∧ code ∈ cfg.autoBanCodes) ∧
        i < cfg.maxRetries) := by
      intro hx
      exact hi hx.2
    simp [attemptStep, h429, h200, h5xx, hnr, hab, hset]
    intro hx
    exact absurd hx hi

def c3Cfg : RetryCfg := ⟨3, true, 1, true, [401, 403]⟩

def c3Pool : Pool := ⟨["A", "B"], 0, []⟩

/-- C3 witness: a 401 at attempt 0 with a succeeding refresh retries on the
same credential after half a second, and a 401 at attempt `N = 3` ends the
request with a structured 401 error after disabling and rotating. -/
theorem C3_witness :
    (401 ∈ [400, 401, 404]) ∧ c3Cfg.autoBanEnabled = true ∧
    401 ∈ c3Cfg.autoBanCodes ∧ 0 < c3Cfg.maxRetries ∧ ¬ 3 < c3Cfg.maxRetries ∧
    attemptStep c3Cfg 401 true 0 c3Pool "A" =
      .retry c3Pool (c3Pool.borrow.getD "A")
        [Ev.recordCall "A" false (some 401), Ev.refreshAttempt "A" true,
         Ev.sleep (1 / 2)] ∧
    attemptStep c3Cfg 401 true 3 c3Pool "A" =
      .done (.errorResp 401)
        [Ev.recordCall "A" false (some 401), Ev.disable "A", Ev.rotate] :=
  ⟨by decide, rfl, by decide, by decide, by decide, by
    have h := (C3_refresh_every_attempt c3Cfg 401 true 0 c3Pool "A"
      (by decide) rfl (by decide)).1 (by decide)
    simpa using h,
   (C3_refresh_every_attempt c3Cfg 401 true 3 c3Pool "A"
      (by decide) rfl (by decide)).2 (by decide)⟩

/-- C4 (code bug): `_load_ban_operations` promises in its docstring to drop
every timestamp older than one hour, but it installs and saves the filtered
map only when `removed_count > 0`, and `removed_count` counts operators
whose whole list expired.  Reading a store holding one operator with one
expired (age 3700 s) and one fresh timestamp returns the store verbatim —
the expired timestamp is retained — and nothing is rewritten. -/
theorem C4_code_eval :
    ((3700 : Int) - 0 ≥ 3600) ∧
    load_ban_operations [("A", [0, 3650])] 3700 = ([("A", [0, 3650])], false) := by
  decide

/-- C5: for an upstream 429 at attempt `i < N` with 429-retry enabled the
step emits, in order, a failed-call record with code 429 against the bound
credential, a rotation carrying no call count, and a sleep of
`B · 2 ^ i` seconds, then retries; with `i = N` or 429-retry disabled it
terminates with a structured error whose code is 429. -/
theorem C5_429_step (cfg : RetryCfg) (refreshOk : Bool) (i : Nat) (pool : Pool)
    (cur : String) :
    (cfg.retry429Enabled = true → i < cfg.maxRetries →
       attemptStep cfg 429 refreshOk i pool cur =
         .retry pool.rotate (pool.rotate.borrow.getD cur)
           [Ev.recordCall cur false (some 429), Ev.rotate,
            Ev.sleep (cfg.retryInterval * 2 ^ i)]) ∧
    (¬(cfg.retry429Enabled = true ∧ i < cfg.maxRetries) →
       attemptStep cfg 429 refreshOk i pool cur
         = .done (.errorResp 429) [Ev.recordCall cur false (some 429)]) := by
  constructor
  · intro he hi
    simp [attemptStep, he, hi]
  · intro h
    simp [attemptStep, h]

def c5Cfg : RetryCfg := ⟨2, true, 1, true, [403]⟩

def c5Pool : Pool := ⟨["A", "B"], 0, []⟩

/-- C5 witness: a 429 at attempt 0 of a two-credential pool records the
failure on credential A, rotates to B, and waits `1 · 2 ^ 0` seconds. -/
theorem C5_witness :
    c5Cfg.retry429Enabled = true ∧ 0 < c5Cfg.maxRetries ∧
    attemptStep c5Cfg 429 false 0 c5Pool "A" =
      .retry c5Pool.rotate (c5Pool.rotate.borrow.getD "A")
        [Ev.recordCall "A" false (some 429), Ev.rotate,
         Ev.sleep (c5Cfg.retryInterval * 2 ^ 0)] :=
  ⟨rfl, by decide, (C5_429_step c5Cfg false 0 c5Pool "A").1 rfl (by decide)⟩

/-- C6 (code bug): an operator with three recorded bans is refused with the
remaining-minutes message, and every successful ban appends the current
timestamp; but through the `_load_ban_operations` bug (see C4) the refusal
outlives the window of the oldest timestamp: with timestamps at 0, 3600 and
3650 read at 3700 the oldest (age 3700 s) has left the one-hour window, yet
the fourth ban is still refused because the stale timestamp was not
compacted away. -/
theorem C6_code_eval :
    ((3700 : Int) - 0 ≥ 3600) ∧
    (check_ban_operation_limit [("O", [0, 3600, 3650])] "O" 3700).1.1 = false ∧
    record_ban_operation [("O", [3600])] "O" 3700 = [("O", [3600, 3700])] := by
  decide

/-- C7: the pruning sweep deletes exactly the records matching the
specification's tiered rule (`spec_prune`): non-banned, non-zero
`last_request_time`, inactive at least 7 days when `total_requests ≥ 300`,
5 days for 50–299, 3 days below 50; in particular a record with
`total_requests = 300` inactive six days survives while the same record
inactive seven days is dropped. -/
def c7Rec : IPRecord :=
  { status := some "active", totalRequests := some 300, lastRequestTime := some 100 }

theorem C7_prune_exact (st : IMState) (now : Int) :
    (cleanup_old_ips st now).ips = st.ips.filter (fun p => !spec_prune p.2 now) ∧
    shouldRemoveIP c7Rec 518500 = false ∧
    shouldRemoveIP c7Rec 604900 = true :=
  ⟨cleanup_ips_eq st now, by decide, by decide⟩

/-- C8: on every exit mode of the streaming generator — clean close,
mid-stream exception, client cancellation — the trace ends with the
guaranteed-exit block closing the stream context and then the HTTP client,
in that order, and no close happens anywhere else. -/
theorem C8_stream_teardown (chunks : List String) (ex : StreamExit) :
    ∃ p, managed_stream_generator chunks ex
        = p ++ [StreamEv.closeStreamCtx, StreamEv.closeClient] ∧
      StreamEv.closeStreamCtx ∉ p ∧ StreamEv.closeClient ∉ p := by
  cases ex with
  | clean =>
      exact ⟨_, rfl, (close_not_mem_processed chunks).1,
        (close_not_mem_processed chunks).2⟩
  | exceptAt k msg =>
      refine ⟨_, rfl, ?_, ?_⟩ <;>
        · rw [List.mem_append]
          rintro (h | h)
          · first
              | exact (close_not_mem_processed (chunks.take k)).1 h
              | exact (close_not_mem_processed (chunks.take k)).2 h
          · simp at h
  | cancelAt k =>
      exact ⟨_, rfl, (close_not_mem_processed (chunks.take k)).1,
        (close_not_mem_processed (chunks.take k)).2⟩

/-- C9: for a stored record whose `today_date` differs from today (UTC+8)
and which passes admission, `record_request` resets the daily statistics
and then applies the increment, leaving `today_requests = 1` and
`today_date` equal to today. -/
theorem C9_day_rollover (st : IMState) (ip endpoint : String) (ua mdl : Option String)
    (now : Int) (nowStr todayDate loc : String) (r : IPRecord)
    (hr : alookup st.ips ip = some r)
    (hdate : r.todayDate.getD "" ≠ todayDate)
    (hb : r.status ≠ some "banned")
    (hrl : ¬(r.status = some "rate_limited" ∧
        now - r.lastRequestTime.getD 0 < r.rateLimitSeconds.getD 60)) :
    (record_request st ip endpoint ua mdl now nowStr todayDate loc).1 = true ∧
    ∃ r', alookup (record_request st ip endpoint ua mdl now nowStr todayDate loc).2.ips ip
        = some r' ∧ r'.todayRequests = some 1 ∧ r'.todayDate = some todayDate := by
  constructor
  · simp [record_request, hr, hb, hrl]
  · simp only [record_request, hr, hb, hrl, and_false, if_false, Option.getD_some, ne_eq,
      hdate, not_false_eq_true, if_true, ite_true, ite_false]
    refine ⟨_, alookup_aupsert_self _ _ _, ?_⟩
    cases ua <;> cases mdl <;> simp <;>
      (refine ⟨?_, ?_⟩ <;> split_ifs <;> rfl)

def c9Rec : IPRecord :=
  { status := some "active", todayRequests := some 5, todayDate := some "2024-01-01",
    totalRequests := some 10 }

def c9State : IMState := { ips := [("2.2.2.2", c9Rec)] }

/-- C9 witness: an active record dated 2024-01-01 recorded on 2024-01-02
ends with `today_requests = 1` and the new date. -/
theorem C9_witness :
    alookup c9State.ips "2.2.2.2" = some c9Rec ∧
    c9Rec.todayDate.getD "" ≠ "2024-01-02" ∧
    c9Rec.status ≠ some "banned" ∧
    ¬(c9Rec.status = some "rate_limited" ∧
        (100 : Int) - c9Rec.lastRequestTime.getD 0 < c9Rec.rateLimitSeconds.getD 60) ∧
    ((record_request c9State "2.2.2.2" "/v1/chat/completions" none none 100 "t"
        "2024-01-02" "l").1 = true ∧
     ∃ r', alookup (record_request c9State "2.2.2.2" "/v1/chat/completions" none none
          100 "t" "2024-01-02" "l").2.ips "2.2.2.2" = some r' ∧
        r'.todayRequests = some 1 ∧ r'.todayDate = some "2024-01-02") :=
  ⟨by decide, by decide, by decide, by decide,
   C9_day_rollover c9State "2.2.2.2" "/v1/chat/completions" none none 100 "t"
     "2024-01-02" "l" c9Rec (by decide) (by decide) (by decide) (by decide)⟩

/-- C10: a status outside the three legal values makes `set_ip_status`
return `(False, error)` and leaves the whole state — IP map, dirty flag and
ban-operation store — unchanged. -/
theorem C10_invalid_status (st : IMState) (ip status : String) (rls : Option Int)
    (opIp : Option String) (now : Int) (nowStr loc : String)
    (h : status ∉ ["active", "banned", "rate_limited"]) :
    set_ip_status st ip status rls opIp now nowStr loc
      = ((false, invalidStatusMsg), st) := by
  simp [set_ip_status, h]

/-- C10 witness: status `"frozen"` is refused without touching the state. -/
theorem C10_witness :
    ("frozen" : String) ∉ ["active", "banned", "rate_limited"] ∧
    set_ip_status {} "1.2.3.4" "frozen" none (some "op") 0 "t" "l"
      = ((false, invalidStatusMsg), ({} : IMState)) :=
  ⟨by decide, C10_invalid_status {} "1.2.3.4" "frozen" none (some "op") 0 "t" "l"
    (by decide)⟩

end Fare
